import Mathlib

/-
Verification development for the SenseHat weather station script
(src/weather_station.py). Python floats are modelled as rationals (ℚ),
Python ints as ℤ/ℕ, and the upload path's exception flow as `Except`.
All definitions are transcribed from the source file; line numbers in
comments refer to src/weather_station.py.
-/

namespace WeatherStation

/-- The module-level constant `MEASUREMENT_INTERVAL = 10` (line 28). -/
def MEASUREMENT_INTERVAL : ℕ := 10

/-- The function `c_to_f` (lines 83-85): `return (input_temp * 1.8) + 32`. -/
def c_to_f (input_temp : ℚ) : ℚ :=
  (input_temp * 1.8) + 32

/-- The smoothing buffer `get_smooth.t` attached to the `get_smooth`
function (line 100): `none` models the attribute not yet existing,
`some (t0, t1, t2)` models the 3-slot list `[t0, t1, t2]`. -/
abbrev SmoothState := Option (ℚ × ℚ × ℚ)

/-- The function `get_smooth` (lines 96-107): if the buffer does not
exist, create it as `[x, x, x]`; then shift `t[2] ← t[1]`, `t[1] ← t[0]`,
`t[0] ← x` and return the average of the three slots, paired here with
the buffer left behind. -/
def get_smooth (s : SmoothState) (x : ℚ) : ℚ × SmoothState :=
  let t := s.getD (x, x, x)
  let t0 := x
  let t1 := t.1
  let t2 := t.2.1
  ((t0 + t1 + t2) / 3, some (t0, t1, t2))

/-- The compensation arithmetic of `get_temp` (lines 121-128):
`t = (t1 + t2) / 2` and `t_corr = t - ((t_cpu - t) / 1.5)`, where `t1`
is the humidity-sensor temperature, `t2` the pressure-sensor temperature
and `t_cpu` the CPU (reference) temperature. -/
def compensate (t1 t2 t_cpu : ℚ) : ℚ :=
  let t := (t1 + t2) / 2
  t - ((t_cpu - t) / 1.5)

/-- The function `get_temp` (lines 110-133) with the sensor reads made
explicit inputs and the hidden `get_smooth` buffer made an explicit
state: compensate, then smooth. -/
def get_temp_step (s : SmoothState) (t1 t2 t_cpu : ℚ) : ℚ × SmoothState :=
  get_smooth s (compensate t1 t2 t_cpu)

/-- One raw sensor sample (spec §3 RawSample): humidity-derived
temperature, pressure-derived temperature and the CPU reference
temperature, all in Celsius. -/
structure RawSample where
  h : ℚ
  p : ℚ
  r : ℚ

/-- The `get_smooth` buffer after the first `n` calls of `get_temp`,
fed the sample sequence `f` (call `i` receives `f i`); the buffer starts
uninitialized (line 98). -/
def estStateAfter (f : ℕ → RawSample) : ℕ → SmoothState
  | 0 => none
  | n + 1 => (get_temp_step (estStateAfter f n) (f n).h (f n).p (f n).r).2

/-- The value returned by call `n` (0-indexed) of `get_temp` on the
sample sequence `f`. -/
def estOutput (f : ℕ → RawSample) (n : ℕ) : ℚ :=
  (get_temp_step (estStateAfter f n) (f n).h (f n).p (f n).r).1

/-- The compensated (pre-smoothing) value of call `n` on sequence `f`. -/
def compensated (f : ℕ → RawSample) (n : ℕ) : ℚ :=
  compensate (f n).h (f n).p (f n).r

/-- The `last_minute` initialization (lines 144-148): take the current
minute, subtract 1, and reset to 59 only when the result equals 0. -/
def lastMinuteInit (m : ℕ) : ℤ :=
  let lm : ℤ := (m : ℤ) - 1
  if lm = 0 then 59 else lm

/-- The startup cadence check in `main` (lines 271-273):
`(MEASUREMENT_INTERVAL is None) or (MEASUREMENT_INTERVAL > 60)` makes
the process exit with code 1. `none` models the Python `None`. -/
def measurementIntervalFatal (mi : Option ℤ) : Bool :=
  match mi with
  | none => true
  | some v => decide (v > 60)

/-- The LED images chosen by the direction logic (lines 201, 204, 208):
`arrow_up`, `arrow_down` and `bars`. -/
inductive Display
  | up
  | down
  | flat
  deriving DecidableEq, Repr

/-- The direction logic and previous-value update (lines 198-210): if
`last_temp != temp_f` show the down arrow when `last_temp > temp_f` and
the up arrow otherwise, else show the bars; then `last_temp = temp_f`.
Returns the rendered image and the new `last_temp`. -/
def displayStep (last_temp temp_f : ℚ) : Display × ℚ :=
  (if last_temp ≠ temp_f then
     if last_temp > temp_f then Display.down else Display.up
   else Display.flat,
   temp_f)

/-- Python 2's `round` to 0 digits on a rational: round half away from
zero, returning an integer value. -/
def pyRound (x : ℚ) : ℤ :=
  if 0 ≤ x then ⌊x + 1 / 2⌋ else ⌈x - 1 / 2⌉

/-- Python 2's `round(x, 1)`: round to one decimal place. -/
def round1 (x : ℚ) : ℚ :=
  (pyRound (x * 10) : ℚ) / 10

/-- Python 2's `round(x, 0)` (the result is still a float). -/
def round0 (x : ℚ) : ℚ :=
  (pyRound x : ℚ)

/-- The 5-second sampling guard (line 159):
`(current_second == 0) or ((current_second % 5) == 0)`. -/
def sampleTick (second : ℕ) : Bool :=
  (second == 0) || (second % 5 == 0)

/-- The cadence test (line 193):
`(current_minute == 0) or ((current_minute % MEASUREMENT_INTERVAL) == 0)`. -/
def uploadMinute (minute : ℕ) : Bool :=
  (minute == 0) || (minute % MEASUREMENT_INTERVAL == 0)

/-- The names bound at module scope of weather_station.py while
`processing_loop` runs (lines 26-80 plus the defined functions). The
bare `except:` handler at line 243 evaluates `type(e)`; `e` is not a
local of `processing_loop`, so Python resolves it against this table,
where line 43 binds `e` to the empty colour `[0, 0, 0]` — the lookup
succeeds, so the handler logs instead of raising NameError. -/
def moduleBindings : List String :=
  ["DEBUG_MODE", "MEASUREMENT_INTERVAL", "WEATHER_UPLOAD", "WU_URL",
   "SINGLE_HASH", "HASHES", "b", "r", "e", "arrow_up", "arrow_down",
   "bars", "wu_station_id", "wu_station_key", "sense", "c_to_f",
   "get_cpu_temp", "get_smooth", "get_temp", "processing_loop", "main"]

/-- The except-handler body (lines 243-245) as name resolution: it
raises NameError iff the name `e` is unbound, otherwise it logs the
error and falls through. -/
def exceptHandler : Except String Unit :=
  if "e" ∈ moduleBindings then Except.ok () else Except.error "NameError"

/-- The try/except around the upload (lines 235-245). The argument is
the behaviour of `urllib2.urlopen` plus `response.read()`: `ok html` is
a response read successfully, `error msg` any exception raised inside
the try block (network error, non-2xx HTTPError, timeout, encoding
failure). Returns (succeeded, error-was-logged); an error of its own
models an exception escaping the handler. -/
def uploadAttempt (net : Except String String) : Except String (Bool × Bool) :=
  match net with
  | Except.ok _html => Except.ok (true, false)
  | Except.error _ =>
      match exceptHandler with
      | Except.ok _ => Except.ok (false, true)
      | Except.error err => Except.error err

/-- The upload outcome with the handler's name lookup already resolved
(used by the total form of the loop body below). -/
def uploadHandled (net : Except String String) : Bool × Bool :=
  match net with
  | Except.ok _html => (true, false)
  | Except.error _ => (false, true)

/-- The mutable locals of `processing_loop` that survive across loop
iterations: `last_temp` (line 140), `last_minute` (line 144) and the
`get_smooth` buffer. -/
structure LoopState where
  last_temp : ℚ
  last_minute : ℤ
  smooth : SmoothState
  deriving DecidableEq

/-- The environment inputs consumed by one iteration of the `while`
loop: the wall clock (second, minute), the sensor reads feeding
`get_temp`, `sense.get_humidity()`, `sense.get_pressure()` (millibar),
and the network behaviour of the upload request. -/
structure TickIn where
  second : ℕ
  minute : ℕ
  sample : RawSample
  humidity : ℚ
  pressure : ℚ
  net : Except String String

/-- The observable outcome of one loop iteration: the surviving state,
the image rendered on the LED matrix (if any), the `weather_data` values
(tempf, humidity, baromin) put in the request (if one was attempted),
whether the upload succeeded, and whether the except handler logged an
error. -/
structure TickOut where
  state : LoopState
  display : Option Display
  payload : Option (ℚ × ℚ × ℚ)
  uploaded : Bool
  errorLogged : Bool
  deriving DecidableEq

/-- One iteration of the `while 1` loop of `processing_loop`
(lines 152-251), transcribed statement by statement; `wu` is the
`WEATHER_UPLOAD` constant (line 31). An `Except.error` models an
uncaught exception aborting the loop. -/
def tick (wu : Bool) (st : LoopState) (i : TickIn) : Except String TickOut :=
  if sampleTick i.second then
    let res := get_temp_step st.smooth i.sample.h i.sample.p i.sample.r
    let temp_f := round1 (c_to_f res.1)
    let humidity := round0 i.humidity
    let pressure := round1 (i.pressure * 0.0295300)
    if (i.minute : ℤ) ≠ st.last_minute then
      if uploadMinute i.minute then
        let d := displayStep st.last_temp temp_f
        let st' : LoopState := ⟨d.2, (i.minute : ℤ), res.2⟩
        if wu then
          match uploadAttempt i.net with
          | Except.ok s =>
              Except.ok ⟨st', some d.1, some (temp_f, humidity, pressure), s.1, s.2⟩
          | Except.error err => Except.error err
        else
          Except.ok ⟨st', some d.1, none, false, false⟩
      else
        Except.ok ⟨⟨st.last_temp, (i.minute : ℤ), res.2⟩, none, none, false, false⟩
    else
      Except.ok ⟨⟨st.last_temp, st.last_minute, res.2⟩, none, none, false, false⟩
  else
    Except.ok ⟨st, none, none, false, false⟩

/-- The same loop iteration in total form, with the handler's `e`
lookup already resolved (`tick_never_raises` below proves the two
agree). -/
def tickCore (wu : Bool) (st : LoopState) (i : TickIn) : TickOut :=
  if sampleTick i.second then
    let res := get_temp_step st.smooth i.sample.h i.sample.p i.sample.r
    let temp_f := round1 (c_to_f res.1)
    let humidity := round0 i.humidity
    let pressure := round1 (i.pressure * 0.0295300)
    if (i.minute : ℤ) ≠ st.last_minute then
      if uploadMinute i.minute then
        let d := displayStep st.last_temp temp_f
        let st' : LoopState := ⟨d.2, (i.minute : ℤ), res.2⟩
        if wu then
          let s := uploadHandled i.net
          ⟨st', some d.1, some (temp_f, humidity, pressure), s.1, s.2⟩
        else
          ⟨st', some d.1, none, false, false⟩
      else
        ⟨⟨st.last_temp, (i.minute : ℤ), res.2⟩, none, none, false, false⟩
    else
      ⟨⟨st.last_temp, st.last_minute, res.2⟩, none, none, false, false⟩
  else
    ⟨st, none, none, false, false⟩

/-- The number of upload events (iterations that reach the cadence
branch, which renders the display and, when enabled, uploads) in a run
of consecutive loop iterations. -/
def runEvents (wu : Bool) (st : LoopState) : List TickIn → ℕ
  | [] => 0
  | i :: is =>
      let o := tickCore wu st i
      (if o.display.isSome then 1 else 0) + runEvents wu o.state is

end WeatherStation

namespace WeatherStation

/-- Base fact about one smoothing call: unfolded form of `get_smooth`. -/
theorem get_smooth_some (t0 t1 t2 x : ℚ) :
    get_smooth (some (t0, t1, t2)) x = ((x + t0 + t1) / 3, some (x, t0, t1)) := rfl

/-- The buffer after `n + 1` estimator calls holds the last three
compensated values (indices clamped at 0 by truncated subtraction). -/
theorem estStateAfter_succ (f : ℕ → RawSample) (n : ℕ) :
    estStateAfter f (n + 1) =
      some (compensated f n, compensated f (n - 1), compensated f (n - 2)) := by
  induction n with
  | zero => rfl
  | succ k ih =>
      show (get_temp_step (estStateAfter f (k + 1)) (f (k + 1)).h (f (k + 1)).p
        (f (k + 1)).r).2 = _
      rw [ih]
      simp [get_temp_step, get_smooth, compensated]

/-- Claim C5: the very first call to the smoothing step, with an uninitialized
buffer, seeds all three slots with the input `x` and returns exactly `x`. -/
theorem first_smooth_seeds_and_returns_input (x : ℚ) :
    get_smooth none x = (x, some (x, x, x)) := by
  simp [get_smooth]
  ring

/-- Claim C4: the temperature returned at call `n` of `get_temp` is the mean of
the compensated values of calls `n`, `n-1`, `n-2`, the indices clamped to
the available history (truncated ℕ subtraction) for the first two calls. -/
theorem get_temp_is_mean_of_last_three (f : ℕ → RawSample) (n : ℕ) :
    estOutput f n =
      (compensated f n + compensated f (n - 1) + compensated f (n - 2)) / 3 := by
  cases n with
  | zero =>
      show (get_temp_step none (f 0).h (f 0).p (f 0).r).1 = _
      simp [get_temp_step, get_smooth, compensated]
  | succ k =>
      show (get_temp_step (estStateAfter f (k + 1)) (f (k + 1)).h (f (k + 1)).p
        (f (k + 1)).r).1 = _
      rw [estStateAfter_succ]
      simp [get_temp_step, get_smooth, compensated]

/-- Claim C8: `c_to_f` is the pure function `c * 1.8 + 32`; it maps 0 to
exactly 32 and 100 to exactly 212. -/
theorem c_to_f_exact :
    (∀ c : ℚ, c_to_f c = c * 1.8 + 32) ∧ c_to_f 0 = 32 ∧ c_to_f 100 = 212 := by
  refine ⟨fun c => rfl, by norm_num [c_to_f], by norm_num [c_to_f]⟩

/-- Claim C7: on an upload event the rendered image is the up arrow exactly when
the new temperature exceeds the previous, the down arrow exactly when it
is below it, the bars exactly when they are equal, and the stored previous
value is replaced with the new value. -/
theorem display_direction_correct (prev new : ℚ) :
    ((displayStep prev new).1 = Display.up ↔ prev < new) ∧
    ((displayStep prev new).1 = Display.down ↔ new < prev) ∧
    ((displayStep prev new).1 = Display.flat ↔ prev = new) ∧
    (displayStep prev new).2 = new := by
  rcases lt_trichotomy prev new with h | h | h <;>
    simp [displayStep, h, ne_of_gt, ne_of_lt, not_lt_of_gt, le_of_lt, h.le]

/-- Claim C2 (code bug): evaluating the cursor initialization at the
failing minutes: minute 0 yields -1 (the claim and the code's own
comment say 59) and minute 1 yields 59 (they say 0); minutes m ≥ 2
yield m - 1 as claimed (shown here at 2 and 59). -/
theorem lastMinuteInit_bug :
    lastMinuteInit 0 = -1 ∧ lastMinuteInit 1 = 59 ∧
    lastMinuteInit 2 = 1 ∧ lastMinuteInit 59 = 58 := by decide

/-- Claim C3 counterexample: the claim says `MEASUREMENT_INTERVAL = 0`
is fatal at startup, but the startup check passes it (only `None` and
values greater than 60 are rejected). -/
theorem measurement_interval_zero_not_fatal :
    measurementIntervalFatal (some 0) = false := by decide

/-- Claim C3 amended: the startup check exits with code 1 exactly when
`MEASUREMENT_INTERVAL` is `None` or greater than 60; every value at most
60 — including 0 and negative values, not only (0, 60] — passes it. -/
theorem measurement_interval_check_exact :
    (∀ v : ℤ, measurementIntervalFatal (some v) = true ↔ 60 < v) ∧
    measurementIntervalFatal none = true := by
  refine ⟨fun v => ?_, rfl⟩
  simp [measurementIntervalFatal]

/-- The handler's name lookup succeeds: `e` is bound at module scope. -/
theorem exceptHandler_ok : exceptHandler = Except.ok () := rfl

/-- The try/except never lets an exception escape: it always returns the
handled outcome. -/
theorem uploadAttempt_eq (net : Except String String) :
    uploadAttempt net = Except.ok (uploadHandled net) := by
  cases net <;> rfl

/-- A loop iteration never raises: the faithful form agrees with the
total form. -/
theorem tick_eq_core (wu : Bool) (st : LoopState) (i : TickIn) :
    tick wu st i = Except.ok (tickCore wu st i) := by
  unfold tick tickCore
  simp only [uploadAttempt_eq]
  repeat' split
  all_goals rfl

/-- An iteration off the 5-second grid does nothing. -/
theorem tickCore_no_sample (wu : Bool) (st : LoopState) (i : TickIn)
    (h : sampleTick i.second = false) :
    tickCore wu st i = ⟨st, none, none, false, false⟩ := by
  simp [tickCore, h]

/-- A sampling iteration inside an unchanged minute only feeds the
smoothing buffer: cursor and `last_temp` stay, nothing is rendered or
uploaded. -/
theorem tickCore_same_minute (wu : Bool) (st : LoopState) (i : TickIn)
    (hs : sampleTick i.second = true) (hm : (i.minute : ℤ) = st.last_minute) :
    tickCore wu st i =
      ⟨⟨st.last_temp, st.last_minute,
        (get_temp_step st.smooth i.sample.h i.sample.p i.sample.r).2⟩,
        none, none, false, false⟩ := by
  simp [tickCore, hs, hm]

/-- A sampling iteration in a fresh minute moves the cursor to that
minute and renders exactly when the minute passes the cadence test. -/
theorem tickCore_new_minute (wu : Bool) (st : LoopState) (i : TickIn)
    (hs : sampleTick i.second = true) (hm : (i.minute : ℤ) ≠ st.last_minute) :
    (tickCore wu st i).state.last_minute = (i.minute : ℤ) ∧
    (tickCore wu st i).display.isSome = uploadMinute i.minute := by
  cases hu : uploadMinute i.minute <;> cases wu <;>
    simp [tickCore, hs, hm, hu, displayStep]

/-- While the cursor already points at the run's minute, no upload event
can fire. -/
theorem runEvents_cursor_fixed (wu : Bool) (m : ℕ) :
    ∀ (is : List TickIn) (st : LoopState), st.last_minute = (m : ℤ) →
      (∀ i ∈ is, i.minute = m) → runEvents wu st is = 0 := by
  intro is
  induction is with
  | nil => intro st _ _; rfl
  | cons i is ih =>
      intro st hcur hall
      have him : i.minute = m := hall i (List.mem_cons_self i is)
      have htail : ∀ j ∈ is, j.minute = m :=
        fun j hj => hall j (List.mem_cons_of_mem i hj)
      cases hs : sampleTick i.second with
      | false =>
          rw [runEvents, tickCore_no_sample wu st i hs]
          simpa using ih st hcur htail
      | true =>
          have hm : (i.minute : ℤ) = st.last_minute := by rw [him, hcur]
          rw [runEvents, tickCore_same_minute wu st i hs hm]
          simpa using ih ⟨st.last_temp, st.last_minute,
            (get_temp_step st.smooth i.sample.h i.sample.p i.sample.r).2⟩ hcur htail

/-- Count of upload events over a run inside one minute `m`: one iff the
minute differs from the cursor, passes the cadence test, and some
iteration hits the 5-second grid; zero otherwise. -/
theorem runEvents_count (wu : Bool) (m : ℕ) :
    ∀ (is : List TickIn) (st : LoopState), (∀ i ∈ is, i.minute = m) →
      runEvents wu st is =
        if ((m : ℤ) ≠ st.last_minute ∧ uploadMinute m = true ∧
            is.any (fun i => sampleTick i.second) = true) then 1 else 0 := by
  intro is
  induction is with
  | nil => intro st _; simp [runEvents]
  | cons i is ih =>
      intro st hall
      have him : i.minute = m := hall i (List.mem_cons_self i is)
      have htail : ∀ j ∈ is, j.minute = m :=
        fun j hj => hall j (List.mem_cons_of_mem i hj)
      cases hs : sampleTick i.second with
      | false =>
          rw [runEvents, tickCore_no_sample wu st i hs]
          rw [ih st htail]
          simp [List.any_cons, hs]
      | true =>
          by_cases hne : (m : ℤ) ≠ st.last_minute
          · have hm' : (i.minute : ℤ) ≠ st.last_minute := by rw [him]; exact hne
            obtain ⟨hcur, hdisp⟩ := tickCore_new_minute wu st i hs hm'
            have h0 : runEvents wu (tickCore wu st i).state is = 0 :=
              runEvents_cursor_fixed wu m is _ (by rw [hcur, him]) htail
            rw [runEvents]
            simp only [hdisp, h0, him]
            cases hu : uploadMinute m <;>
              simp [List.any_cons, hs, hne, hu]
          · push_neg at hne
            rw [runEvents_cursor_fixed wu m (i :: is) st hne.symm hall]
            simp [hne]

/-- Claim C6: with `MEASUREMENT_INTERVAL = 10`, over any run of loop
iterations inside one wall-clock minute `m`, an upload event fires
exactly once when `m` passes the cadence test, differs from the cursor
and some iteration hits the 5-second grid — so at most once per
qualifying minute no matter how many 5-second ticks occur in it — and
never otherwise; and for `m < 60` the qualifying minutes are exactly
0, 10, 20, 30, 40 and 50. -/
theorem upload_cadence_exactly_once (wu : Bool) (st : LoopState) (m : ℕ)
    (is : List TickIn) (hm60 : m < 60) (hall : ∀ i ∈ is, i.minute = m) :
    runEvents wu st is =
      (if ((m : ℤ) ≠ st.last_minute ∧ uploadMinute m = true ∧
           is.any (fun i => sampleTick i.second) = true) then 1 else 0) ∧
    (uploadMinute m = true ↔ m ∈ ([0, 10, 20, 30, 40, 50] : List ℕ)) := by
  refine ⟨runEvents_count wu m is st hall, ?_⟩
  have hiff : uploadMinute m = true ↔ (m = 0 ∨ m % 10 = 0) := by
    simp [uploadMinute, MEASUREMENT_INTERVAL]
  rw [hiff]
  simp only [List.mem_cons, List.not_mem_nil, or_false]
  omega

/-- Demo run for the cadence witness: three 5-second-grid iterations
(and one off-grid) inside minute 10. -/
def demoRun : List TickIn :=
  [⟨0, 10, ⟨20, 21, 35⟩, 45, 1013, Except.ok "ok"⟩,
   ⟨5, 10, ⟨20, 21, 35⟩, 45, 1013, Except.ok "ok"⟩,
   ⟨7, 10, ⟨20, 21, 35⟩, 45, 1013, Except.ok "ok"⟩,
   ⟨10, 10, ⟨20, 21, 35⟩, 45, 1013, Except.ok "ok"⟩]

/-- Witness for claim C6: starting from cursor 9 inside minute 10, the
demo run fires exactly one upload event, and 10 is a qualifying minute. -/
theorem upload_cadence_exactly_once_witness :
    runEvents true ⟨70, 9, none⟩ demoRun = 1 ∧
    (10 : ℕ) ∈ ([0, 10, 20, 30, 40, 50] : List ℕ) := by
  have h := upload_cadence_exactly_once true ⟨70, 9, none⟩ 10 demoRun
    (by decide) (by intro i hi; fin_cases hi <;> rfl)
  refine ⟨?_, by decide⟩
  rw [h.1]
  decide

/-- Claim C1: on an upload-eligible iteration whose network call raises,
the exception is caught inside the upload code (the handler's `e` lookup
succeeds) and logged, nothing propagates — the iteration returns
normally, so the scheduler continues to the next tick — and the
surviving state (cursor `last_minute`, smoothing buffer and `last_temp`)
is exactly what a successful upload would have left. -/
theorem upload_failure_contained (st : LoopState) (i : TickIn)
    (err html : String) (hs : sampleTick i.second = true)
    (hm : (i.minute : ℤ) ≠ st.last_minute) (hu : uploadMinute i.minute = true)
    (hnet : i.net = Except.error err) :
    tick true st i = Except.ok (tickCore true st i) ∧
    (tickCore true st i).state =
      (tickCore true st { i with net := Except.ok html }).state ∧
    (tickCore true st i).errorLogged = true ∧
    (tickCore true st i).uploaded = false := by
  refine ⟨tick_eq_core true st i, ?_, ?_, ?_⟩ <;>
    cases i <;> simp_all [tickCore, uploadHandled]

/-- Witness for claim C1 at a concrete failing upload. -/
theorem upload_failure_contained_witness :
    tick true ⟨70, -1, none⟩ ⟨0, 10, ⟨20, 21, 35⟩, 45, 1013, Except.error "URLError"⟩
      = Except.ok (tickCore true ⟨70, -1, none⟩
          ⟨0, 10, ⟨20, 21, 35⟩, 45, 1013, Except.error "URLError"⟩) ∧
    (tickCore true ⟨70, -1, none⟩
        ⟨0, 10, ⟨20, 21, 35⟩, 45, 1013, Except.error "URLError"⟩).state =
      (tickCore true ⟨70, -1, none⟩
        ⟨0, 10, ⟨20, 21, 35⟩, 45, 1013, Except.ok "ok"⟩).state ∧
    (tickCore true ⟨70, -1, none⟩
        ⟨0, 10, ⟨20, 21, 35⟩, 45, 1013, Except.error "URLError"⟩).errorLogged = true ∧
    (tickCore true ⟨70, -1, none⟩
        ⟨0, 10, ⟨20, 21, 35⟩, 45, 1013, Except.error "URLError"⟩).uploaded = false :=
  upload_failure_contained ⟨70, -1, none⟩ _ "URLError" "ok"
    (by decide) (by decide) (by decide) rfl

/-- Claim C9: on an upload-eligible iteration, disabling WEATHER_UPLOAD
skips only the network request: the rendered image and the entire
surviving state (including the replaced `last_temp`) are identical to an
enabled run, the display is indeed rendered, and no request payload is
built or sent. -/
theorem display_runs_when_upload_disabled (st : LoopState) (i : TickIn)
    (net' : Except String String) (hs : sampleTick i.second = true)
    (hm : (i.minute : ℤ) ≠ st.last_minute) (hu : uploadMinute i.minute = true) :
    (tickCore false st i).display = (tickCore true st { i with net := net' }).display ∧
    (tickCore false st i).display.isSome = true ∧
    (tickCore false st i).state = (tickCore true st { i with net := net' }).state ∧
    (tickCore false st i).payload = none ∧
    (tickCore false st i).uploaded = false := by
  cases i
  refine ⟨?_, ?_, ?_, ?_, ?_⟩ <;> simp_all [tickCore, uploadHandled]

/-- Witness for claim C9 at a concrete upload-eligible iteration. -/
theorem display_runs_when_upload_disabled_witness :
    (tickCore false ⟨70, 9, none⟩
        ⟨0, 10, ⟨20, 21, 35⟩, 45, 1013, Except.ok "ok"⟩).display =
      (tickCore true ⟨70, 9, none⟩
        ⟨0, 10, ⟨20, 21, 35⟩, 45, 1013, Except.ok "ok"⟩).display ∧
    (tickCore false ⟨70, 9, none⟩
        ⟨0, 10, ⟨20, 21, 35⟩, 45, 1013, Except.ok "ok"⟩).display.isSome = true ∧
    (tickCore false ⟨70, 9, none⟩
        ⟨0, 10, ⟨20, 21, 35⟩, 45, 1013, Except.ok "ok"⟩).state =
      (tickCore true ⟨70, 9, none⟩
        ⟨0, 10, ⟨20, 21, 35⟩, 45, 1013, Except.ok "ok"⟩).state ∧
    (tickCore false ⟨70, 9, none⟩
        ⟨0, 10, ⟨20, 21, 35⟩, 45, 1013, Except.ok "ok"⟩).payload = none ∧
    (tickCore false ⟨70, 9, none⟩
        ⟨0, 10, ⟨20, 21, 35⟩, 45, 1013, Except.ok "ok"⟩).uploaded = false :=
  display_runs_when_upload_disabled ⟨70, 9, none⟩
    ⟨0, 10, ⟨20, 21, 35⟩, 45, 1013, Except.ok "ok"⟩ (Except.ok "ok")
    (by decide) (by decide) (by decide)

/-- Claim C10: the values placed in the request and compared for the
direction are the rounded ones — tempf is the Fahrenheit temperature
rounded to one decimal (both compared against `last_temp` and stored as
the new `last_temp`), humidity is rounded to zero decimals, baromin is
millibars times 0.0295300 rounded to one decimal — hence when the
previously stored value and the new reading round to the same tenth of
a degree, the flat bars are displayed. -/
theorem uploaded_values_are_rounded (st : LoopState) (i : TickIn) (prev : ℚ)
    (hs : sampleTick i.second = true) (hm : (i.minute : ℤ) ≠ st.last_minute)
    (hu : uploadMinute i.minute = true) :
    (tickCore true st i).payload =
      some (round1 (c_to_f (get_temp_step st.smooth i.sample.h i.sample.p i.sample.r).1),
            round0 i.humidity, round1 (i.pressure * 0.0295300)) ∧
    (tickCore true st i).display =
      some (displayStep st.last_temp
        (round1 (c_to_f (get_temp_step st.smooth i.sample.h i.sample.p i.sample.r).1))).1 ∧
    (tickCore true st i).state.last_temp =
      round1 (c_to_f (get_temp_step st.smooth i.sample.h i.sample.p i.sample.r).1) ∧
    (st.last_temp = round1 (c_to_f prev) →
      round1 (c_to_f prev) =
        round1 (c_to_f (get_temp_step st.smooth i.sample.h i.sample.p i.sample.r).1) →
      (tickCore true st i).display = some Display.flat) := by
  cases i
  refine ⟨?_, ?_, ?_, fun hp heq => ?_⟩ <;>
    simp_all [tickCore, displayStep, uploadHandled]

/-- Witness for claim C10: a reading whose Fahrenheit value rounds to
the stored 70.0 renders the flat bars. -/
theorem uploaded_values_are_rounded_witness :
    (tickCore true ⟨70, -1, none⟩
        ⟨0, 10, ⟨21.1, 21.1, 21.1⟩, 45, 1013, Except.ok "ok"⟩).display
      = some Display.flat := by
  have h := uploaded_values_are_rounded ⟨70, -1, none⟩
    ⟨0, 10, ⟨21.1, 21.1, 21.1⟩, 45, 1013, Except.ok "ok"⟩ 21.1
    (by decide) (by decide) (by decide)
  exact h.2.2.2 (by norm_num [round1, pyRound, c_to_f, Int.floor_eq_iff])
    (by norm_num [get_temp_step, get_smooth, compensate])

end WeatherStation
